import Mathlib

/-!
Verification of the tide-calendar-site core: the tide-provider adapter layer
(`app/tide_adapters.py`), the pcal conversion stage (`app/get_tides.py`),
the Canadian station synchronization engine (`app/canadian_station_sync.py`)
and the catalog CSV importers (`app/database.py`).

Strings are modelled as lists of characters (`Str`), with the Python string
operations the source uses (`strip`, `split`, `upper`, membership tests,
`isdigit`, `isalnum`, `replace`) defined structurally below.  Floating-point
heights are modelled as rationals; `round(x, 1)` is modelled as rounding
`10*x` to the nearest integer (the concrete heights appearing in the claims
are not at rounding ties, so the tie convention is irrelevant for them).
The SQLite catalog is modelled as a list of rows (`StationRow`) whose column
values are JSON-typed (`Json.null` plays SQL NULL); timestamps
(`CURRENT_TIMESTAMP`) are an abstract integer parameter `now`.
-/

/-- Strings of the Python source, modelled as lists of characters. -/
abbrev Str := List Char

/-- ASCII decimal digit, modelling Python `str.isdigit` per character. -/
def isDigitChar (c : Char) : Bool := '0' ≤ c && c ≤ '9'

/-- ASCII letter or digit, modelling Python `str.isalnum` per character. -/
def isAlnumChar (c : Char) : Bool :=
  ('a' ≤ c && c ≤ 'z') || ('A' ≤ c && c ≤ 'Z') || isDigitChar c

/-- Python `s.isdigit()`: nonempty and every character a digit. -/
def pyIsdigit (s : Str) : Bool := !s.isEmpty && s.all isDigitChar

/-- Python `s.isalnum()`: nonempty and every character alphanumeric. -/
def pyIsalnum (s : Str) : Bool := !s.isEmpty && s.all isAlnumChar

/-- Python whitespace characters stripped by `str.strip()`. -/
def isSpaceChar (c : Char) : Bool :=
  c = ' ' || c = '\t' || c = '\n' || c = '\r' || c = '\x0b' || c = '\x0c'

/-- Python `s.strip()`. -/
def strip (s : Str) : Str :=
  ((s.dropWhile isSpaceChar).reverse.dropWhile isSpaceChar).reverse

/-- Python `s.split(sep)` for a one-character separator `c`. -/
def splitOnChar (c : Char) : Str → List Str
  | [] => [[]]
  | x :: xs =>
    if x = c then [] :: splitOnChar c xs
    else
      match splitOnChar c xs with
      | [] => [[x]]
      | h :: t => (x :: h) :: t

/-- Helper for `splitWs`: `acc` is the current word, reversed. -/
def splitWsAux (acc : Str) : Str → List Str
  | [] => if acc.isEmpty then [] else [acc.reverse]
  | c :: s =>
    if isSpaceChar c then
      if acc.isEmpty then splitWsAux [] s else acc.reverse :: splitWsAux [] s
    else splitWsAux (c :: acc) s

/-- Python `s.split()` (no argument): maximal non-whitespace runs. -/
def splitWs (s : Str) : List Str := splitWsAux [] s

/-- Python `c.upper()` for ASCII characters. -/
def toUpperChar (c : Char) : Char :=
  if 'a' ≤ c && c ≤ 'z' then Char.ofNat (c.toNat - 32) else c

/-- Python `s.upper()`. -/
def toUpperStr (s : Str) : Str := s.map toUpperChar

/-- `startsWithStr s pat`: `s` starts with `pat`. -/
def startsWithStr : Str → Str → Bool
  | _, [] => true
  | [], _ :: _ => false
  | c :: s, p :: ps => c = p && startsWithStr s ps

/-- Python `pat in s` (substring containment). -/
def containsStr (s pat : Str) : Bool :=
  startsWithStr s pat ||
    match s with
    | [] => false
    | _ :: t => containsStr t pat

/-- Python `s.endswith(pat)`. -/
def endsWithStr (s pat : Str) : Bool := startsWithStr s.reverse pat.reverse

/-- Value of a decimal digit character. -/
def digitVal (c : Char) : ℕ := c.toNat - '0'.toNat

/-- Parse a nonempty all-digit string as a natural number (Python `int`). -/
def parseNat? (s : Str) : Option ℕ :=
  if pyIsdigit s then some (s.foldl (fun acc c => 10 * acc + digitVal c) 0) else none

/-- Parse an unsigned decimal literal `digits[.digits]` as a rational,
modelling the values Python `float` yields on the simple decimal strings the
providers emit (exactly; the source never exercises binary-float error at the
granularity the claims observe). -/
def parseDecimal? (s : Str) : Option ℚ :=
  match splitOnChar '.' s with
  | [ip] => (parseNat? ip).map (fun n => (n : ℚ))
  | [ip, fp] =>
    match parseNat? ip, parseNat? fp with
    | some n, some f => some (mkRat ((n * 10 ^ fp.length + f : ℕ) : ℤ) (10 ^ fp.length))
    | _, _ => none
  | _ => none

/-- Python `float(s)` on possibly signed, possibly space-padded input. -/
def pyFloat? (s : Str) : Option ℚ :=
  match strip s with
  | '-' :: rest => (parseDecimal? rest).map (fun q => -q)
  | '+' :: rest => parseDecimal? rest
  | rest => parseDecimal? rest

/-- Python `round(x, 1)`: round `10*x` to the nearest integer and divide by
10, written so the kernel can evaluate it (`round1_eq_round` below shows it
is exactly rounding to the nearest tenth). -/
def round1 (q : ℚ) : ℚ := mkRat (⌊mkRat (20 * q.num + (q.den : ℤ)) (2 * q.den)⌋) 10

/-! ## Adapter layer: station-id validation (`app/tide_adapters.py`) -/

/-- `NOAAAdapter.validate_station` (tide_adapters.py:93-102): reject empty or
non-digit ids, then require length 6 to 8. -/
def validate_station_noaa (station_id : Str) : Bool :=
  if station_id.isEmpty || !pyIsdigit station_id then false
  else decide (6 ≤ station_id.length ∧ station_id.length ≤ 8)

/-- `CHSAdapter.validate_station` (tide_adapters.py:261-280): accept ids
longer than 10 characters that are alphanumeric after removing hyphens, or
purely numeric ids of length 4 to 6. -/
def validate_station_chs (station_id : Str) : Bool :=
  if station_id.isEmpty then false
  else if station_id.length > 10 && pyIsalnum (station_id.filter (fun c => c ≠ '-')) then true
  else if pyIsdigit station_id && decide (4 ≤ station_id.length ∧ station_id.length ≤ 6) then true
  else false

/-- A character that is an alphanumeric or a hyphen. -/
def isAlnumOrHyphen (c : Char) : Bool := isAlnumChar c || c = '-'

/-! ## Adapter layer: Variant B tide-type inference (`app/tide_adapters.py`) -/

/-- `CHSAdapter._determine_tide_type` (tide_adapters.py:507-539).  The
predictions list is modelled as the list of each entry's optional `value`
field; `index` and `value` are passed exactly as at the call site.  The
Python fall-through (peak/trough test, then previous-neighbor comparison,
then next-neighbor comparison, then the alternating default) is reproduced
branch for branch. -/
def determine_tide_type (predictions : List (Option ℚ)) (index : ℕ) (value : ℚ) : Char :=
  let prev_value : Option ℚ := if 0 < index then predictions.getD (index - 1) none else none
  let next_value : Option ℚ := if index < predictions.length - 1 then predictions.getD (index + 1) none else none
  match prev_value, next_value with
  | some p, some n =>
    if value > p ∧ value > n then 'H'
    else if value < p ∧ value < n then 'L'
    else if value > p then 'H' else 'L'
  | some p, none => if value > p then 'H' else 'L'
  | none, some n => if value > n then 'H' else 'L'
  | none, none => if index % 2 = 0 then 'L' else 'H'

/-! ## Adapter dispatcher (`app/tide_adapters.py`) -/

/-- The two concrete adapters the factory can return. -/
inductive Adapter
  | noaa
  | chs
deriving DecidableEq

/-- The `ValueError` conditions `get_adapter_for_station` can raise,
distinguished by message as in the source. -/
inductive DispatchError
  | unsupportedSource (src : Str)
  | emptyStationId
  | unrecognized (station_id : Str)
deriving DecidableEq

/-- The hint-free probing path of `get_adapter_for_station`
(tide_adapters.py:566-580): empty-id check, then NOAA format, then CHS
format, then the unrecognized error. -/
def dispatch_by_format (station_id : Str) : Except DispatchError Adapter :=
  if station_id.isEmpty then .error .emptyStationId
  else if validate_station_noaa station_id then .ok .noaa
  else if validate_station_chs station_id then .ok .chs
  else .error (.unrecognized station_id)

/-- `get_adapter_for_station` (tide_adapters.py:542-580).  A present but
empty hint is falsy in Python (`if api_source:`), so it falls through to
format probing exactly like `None`. -/
def get_adapter_for_station (station_id : Str) (api_source : Option Str) : Except DispatchError Adapter :=
  match api_source with
  | some src =>
    if !src.isEmpty then
      if toUpperStr src = "NOAA".data then .ok .noaa
      else if toUpperStr src = "CHS".data then .ok .chs
      else .error (.unsupportedSource src)
    else dispatch_by_format station_id
  | none => dispatch_by_format station_id

deriving instance DecidableEq for Except

/-! ## Prediction-fetch input gates (`app/tide_adapters.py`) -/

/-- The decision prefix of `NOAAAdapter.get_predictions`
(tide_adapters.py:104-151) up to its first network effect: `none` means the
function returns `None` before issuing any HTTP request; `some (year, month)`
means it goes on to build the request parameters for that month and issue
the single GET. -/
def noaa_request_plan (station_id : Str) (year month : ℤ) : Option (ℤ × ℤ) :=
  if validate_station_noaa station_id = false then none
  else if ¬ (1 ≤ month ∧ month ≤ 12) then none
  else if ¬ (2000 ≤ year ∧ year ≤ 2030) then none
  else some (year, month)

/-- What `CHSAdapter.get_predictions` does after its guards: a numeric
4–6 digit code first issues the UUID resolution call, an already-opaque id
goes straight to the data request. -/
inductive ChsPlan
  | lookupThenFetch (code : Str) (year month : ℤ)
  | fetchDirect (uuid : Str) (year month : ℤ)
deriving DecidableEq

/-- The decision prefix of `CHSAdapter.get_predictions`
(tide_adapters.py:344-406) up to its first network effect (the UUID lookup
or the data GET). -/
def chs_request_plan (station_id : Str) (year month : ℤ) : Option ChsPlan :=
  if validate_station_chs station_id = false then none
  else if ¬ (1 ≤ month ∧ month ≤ 12) then none
  else if ¬ (2000 ≤ year ∧ year ≤ 2030) then none
  else if pyIsdigit station_id && decide (4 ≤ station_id.length ∧ station_id.length ≤ 6) then
    some (.lookupThenFetch station_id year month)
  else some (.fetchDirect station_id year month)

/-! ## Variant A parsing and the pcal output stage
(`app/tide_adapters.py`, `app/get_tides.py`) -/

/-- Python `'\n'.join(lines)`. -/
def joinNl : List Str → Str
  | [] => []
  | [l] => l
  | l :: ls => l ++ '\n' :: joinNl ls

/-- One data line of `NOAAAdapter.parse_response` (tide_adapters.py:201-230):
blank lines and lines with fewer than three comma-separated fields are
skipped (`none`); four or more fields is the old `Date,Time,Prediction,Type`
layout, exactly three the new `Date Time,Prediction,Type` layout; the type
code is upper-cased and, when not `H`/`L`, repaired from the raw line. -/
def noaa_parse_line (line : Str) : Option Str :=
  if (strip line).isEmpty then none
  else
    match (splitOnChar ',' line).map strip with
    | p0 :: p1 :: p2 :: rest =>
      let (date_time, prediction, tide_type) :=
        match rest with
        | p3 :: _ => (p0 ++ ' ' :: p1, p2, p3)
        | [] => (p0, p1, p2)
      let tt := strip (toUpperStr tide_type)
      let tt2 :=
        if tt = ['H'] ∨ tt = ['L'] then tt
        else if containsStr (toUpperStr line) ['H'] then ['H'] else ['L']
      some (date_time ++ ',' :: (prediction ++ ',' :: tt2))
    | _ => none

/-- `NOAAAdapter.parse_response` (tide_adapters.py:167-242): strip and split
the payload, reject short or no-predictions responses, convert each data
line, and reject when no line survived. -/
def parse_response_noaa (response_data : Str) : Option Str :=
  let lines := splitOnChar '\n' (strip response_data)
  if lines.length < 2 then none
  else if containsStr response_data ("No Predictions data was found".data) then none
  else
    let output_lines := ("Date Time,Prediction,Type".data) :: (lines.drop 1).filterMap noaa_parse_line
    if output_lines.length ≤ 1 then none
    else some (joinNl output_lines)

/-- One rendered calendar entry of `convert_tide_data_to_pcal`
(get_tides.py:64-116): the human-facing output record. -/
structure PcalEvent where
  month : ℕ
  day : ℕ
  time : Str
  kind : Str
  height : ℚ
  special : Bool
deriving DecidableEq

/-- One body line of `convert_tide_data_to_pcal` (get_tides.py:64-116):
exactly three comma-separated fields; the height parsed as float and rounded
to one decimal place here, at output time; the date split into year, month
and day; an unrecognized type code defaults to High; rounded heights below
0.3 are marked special (the pcal asterisk). -/
def convert_tide_line (line : Str) : Option PcalEvent :=
  match splitOnChar ',' (strip line) with
  | [date_time, prediction_str, tide_type0] =>
    match pyFloat? (strip prediction_str) with
    | none => none
    | some p =>
      let prediction := round1 p
      match splitWs (strip date_time) with
      | [date, time] =>
        match splitOnChar '-' date with
        | [_year, mo, da] =>
          match parseNat? mo, parseNat? da with
          | some m, some d =>
            let tt := toUpperStr (strip tide_type0)
            let tt2 := if tt = ['H'] ∨ tt = ['L'] then tt else ['H']
            some { month := m, day := d, time := time,
                   kind := if tt2 = ['H'] then "High".data else "Low".data,
                   height := prediction,
                   special := prediction < mkRat 3 10 }
          | _, _ => none
        | _ => none
      | _ => none
  | _ => none

/-- The spec's Variant A (old four-column layout) response. -/
def variantAResponse : Str :=
  ("Date,Time, Prediction, Type\n2024-06-01,00:17, 3.245, H\n2024-06-01,06:42, 0.123, L".data)

/-! ## Canadian station directory fetch (`app/canadian_station_sync.py`) -/

mutual
/-- JSON values, as produced by `json.loads`. -/
inductive Json
  | null
  | bool (b : Bool)
  | num (q : ℚ)
  | str (s : List Char)
  | arr (items : JsonList)
  | obj (fields : JsonFields)
deriving DecidableEq
/-- A JSON array's items. -/
inductive JsonList
  | nil
  | cons (hd : Json) (tl : JsonList)
deriving DecidableEq
/-- A JSON object's fields. -/
inductive JsonFields
  | nil
  | cons (key : List Char) (val : Json) (tl : JsonFields)
deriving DecidableEq
end

/-- Build a `JsonList` from a Lean list. -/
def JsonList.ofList : List Json → JsonList
  | [] => .nil
  | j :: js => .cons j (JsonList.ofList js)

/-- Build a `JsonFields` from a Lean association list. -/
def JsonFields.ofList : List (Str × Json) → JsonFields
  | [] => .nil
  | (k, v) :: fs => .cons k v (JsonFields.ofList fs)

/-- Python truthiness (`if not x:`) of a JSON value. -/
def jsonTruthy : Json → Bool
  | .null => false
  | .bool b => b
  | .num q => decide (q ≠ 0)
  | .str s => !s.isEmpty
  | .arr .nil => false
  | .arr _ => true
  | .obj .nil => false
  | .obj _ => true

/-- Python `dict.get(k, dflt)` on a JSON object's fields. -/
def objGet : JsonFields → Str → Json → Json
  | .nil, _, dflt => dflt
  | .cons key val tl, k, dflt => if key = k then val else objGet tl k dflt

/-- The province codes set `PROVINCE_CODES` (canadian_station_sync.py:33-35). -/
def PROVINCE_CODES : List Str :=
  (["AB", "BC", "MB", "NB", "NL", "NS", "NT", "NU", "ON", "PE", "QC", "SK", "YT"].map
    String.data)

/-- `extract_province_from_name` (canadian_station_sync.py:38-63). -/
def extract_province_from_name (official_name : Str) : Option Str :=
  if official_name.isEmpty then none
  else
    let parts := (splitOnChar ',' official_name).map strip
    if parts.length > 1 then
      let last_part := toUpperStr ((parts.getLast?).getD [])
      if PROVINCE_CODES.contains last_part then some last_part else none
    else none

/-- `construct_place_name` (canadian_station_sync.py:66-107).  Latitude and
longitude arrive as raw JSON values; reaching a numeric comparison with a
non-numeric value raises in Python, modelled by `none`. -/
def construct_place_name (official_name : Str) (province : Option Str)
    (latitude longitude : Json) : Option Str :=
  if official_name.isEmpty then some ("Unknown".data)
  else
    match province with
    | some p =>
      if endsWithStr official_name (',' :: ' ' :: p) then some official_name
      else some (official_name ++ ',' :: ' ' :: p)
    | none =>
      match longitude with
      | .num lo =>
        if lo < -120 then some (official_name ++ (", BC".data))
        else if lo < -95 then some (official_name ++ (", MB".data))
        else
          match latitude with
          | .num la =>
            if la > 50 then some (official_name ++ (", NT".data))
            else if lo < -60 then some (official_name ++ (", QC".data))
            else some (official_name ++ (", NL".data))
          | _ => none
      | _ => none

/-- A filtered station descriptor assembled by the directory fetcher
(canadian_station_sync.py:173-180). -/
structure CanStation where
  code : Json
  officialName : Str
  latitude : Json
  longitude : Json
  province : Str
  place_name : Str
deriving DecidableEq

/-- The short-circuiting `any(ts.get('code') == 'wlp-hilo' ...)` generator
(canadian_station_sync.py:155): `none` models the exception raised on a
non-object element reached before a match. -/
def hasHiloSeries : JsonList → Option Bool
  | .nil => some false
  | .cons (.obj tf) rest =>
    match objGet tf ("code".data) .null with
    | .str s => if s = ("wlp-hilo".data) then some true else hasHiloSeries rest
    | _ => hasHiloSeries rest
  | .cons _ _ => none

/-- The per-station filter body of `fetch_canadian_stations_from_api`
(canadian_station_sync.py:143-180): outer `none` is an exception abandoning
the endpoint, inner `none` a station filtered out or skipped. -/
def processStation (station : Json) : Option (Option CanStation) :=
  match station with
  | .obj f =>
    if !jsonTruthy (objGet f ("operating".data) (.bool false)) then some none
    else if objGet f ("type".data) (.str []) ≠ .str ("PERMANENT".data) then some none
    else
      match objGet f ("timeSeries".data) (.arr .nil) with
      | .arr ts =>
        match hasHiloSeries ts with
        | none => none
        | some false => some none
        | some true =>
          let code := objGet f ("code".data) .null
          let officialName := objGet f ("officialName".data) (.str [])
          let latitude := objGet f ("latitude".data) (.num 0)
          let longitude := objGet f ("longitude".data) (.num 0)
          if !jsonTruthy code || !jsonTruthy officialName then some none
          else
            match officialName with
            | .str nm =>
              let province := extract_province_from_name nm
              match construct_place_name nm province latitude longitude with
              | none => none
              | some pn =>
                some (some { code := code, officialName := nm, latitude := latitude,
                             longitude := longitude, province := province.getD [],
                             place_name := pn })
            | _ => none
      | _ => none
  | _ => none

/-- The station loop over a parsed directory body. -/
def processAll : JsonList → Option (List CanStation)
  | .nil => some []
  | .cons s rest =>
    match processStation s with
    | none => none
    | some none => processAll rest
    | some (some st) => (processAll rest).map (fun l => st :: l)

/-- Filtering a whole parsed directory body
(canadian_station_sync.py:138-182): only an array of objects (or a
degenerate empty iterable) survives; anything else raises inside the loop
(or at the `len` call) and abandons the endpoint. -/
def processStations : Json → Option (List CanStation)
  | .arr l => processAll l
  | .str [] => some []
  | .obj .nil => some []
  | _ => none

/-- One endpoint's behaviour for a directory query: network fault, or an
HTTP status together with either the JSON-parsed body or an unparseable
one. -/
inductive DirectoryReply
  | netError
  | reply (status : ℕ) (body : Option Json)

/-- The result of `fetch_canadian_stations_from_api`: the filtered stations
and the winning endpoint, or the terminal error message. -/
inductive FetchOutcome
  | success (stations : List CanStation) (endpoint : Str)
  | failure (error_msg : Str)
deriving DecidableEq

/-- The endpoint loop of `fetch_canadian_stations_from_api`
(canadian_station_sync.py:126-198), also recording the endpoints contacted:
a network fault, non-200 status, JSON decode failure, or any exception while
filtering falls through to the next endpoint; the first endpoint whose body
parses and filters successfully wins and the loop returns immediately. -/
def fetchLoop (oracle : Str → DirectoryReply) : List Str → FetchOutcome × List Str
  | [] => (.failure ("All CHS API endpoints failed".data), [])
  | url :: rest =>
    match oracle url with
    | .netError =>
      let r := fetchLoop oracle rest
      (r.1, url :: r.2)
    | .reply status body =>
      if status ≠ 200 then
        let r := fetchLoop oracle rest
        (r.1, url :: r.2)
      else
        match body with
        | none =>
          let r := fetchLoop oracle rest
          (r.1, url :: r.2)
        | some j =>
          match processStations j with
          | none =>
            let r := fetchLoop oracle rest
            (r.1, url :: r.2)
          | some sts => (.success sts url, [url])

/-- First entry of `CHS_BASE_URLS` (canadian_station_sync.py:23-26). -/
def CHS_URL_AZURE : Str := "https://api.iwls-sine.azure.cloud-nuage.dfo-mpo.gc.ca/api/v1".data

/-- Second entry of `CHS_BASE_URLS` (canadian_station_sync.py:23-26). -/
def CHS_URL_LEGACY : Str := "https://api-iwls.dfo-mpo.gc.ca/api/v1".data

/-- `fetch_canadian_stations_from_api` over its fixed two-endpoint list. -/
def fetch_canadian_stations_from_api (oracle : Str → DirectoryReply) : FetchOutcome × List Str :=
  fetchLoop oracle [CHS_URL_AZURE, CHS_URL_LEGACY]

/-- An endpoint that does not let the loop stop there: anything other than a
200 reply whose body parses and filters. -/
def endpointFails (oracle : Str → DirectoryReply) (url : Str) : Prop :=
  ¬ ∃ j sts, oracle url = .reply 200 (some j) ∧ processStations j = some sts

/-- A directory entry as the CHS API returns it, used in the failover
witness. -/
def vancouverJson : Json :=
  .obj (JsonFields.ofList
    [("operating".data, .bool true),
     ("type".data, .str ("PERMANENT".data)),
     ("timeSeries".data,
       .arr (JsonList.ofList [.obj (JsonFields.ofList [("code".data, .str ("wlp-hilo".data))])])),
     ("code".data, .str ("07735".data)),
     ("officialName".data, .str ("Vancouver".data)),
     ("latitude".data, .num 49),
     ("longitude".data, .num (-123))])

/-- The station descriptor the filter derives from `vancouverJson`. -/
def vancouverStation : CanStation :=
  { code := .str ("07735".data), officialName := "Vancouver".data,
    latitude := .num 49, longitude := .num (-123), province := [],
    place_name := "Vancouver, BC".data }

deriving instance DecidableEq for DirectoryReply

/-- The spec's failover scenario: the first endpoint answers HTTP 500, the
second a valid filtered list. -/
def scenarioOracle : Str → DirectoryReply := fun url =>
  if url = CHS_URL_AZURE then .reply 500 (some (.arr .nil))
  else .reply 200 (some (.arr (JsonList.ofList [vancouverJson])))

/-! ## Catalog model and synchronization passes
(`app/canadian_station_sync.py`, `app/database.py`) -/

/-- One row of the `tide_station_ids` table.  Column values are JSON-typed
(`Json.null` is SQL NULL; distinct SQLite types never compare equal, like
the model's distinct constructors); `CURRENT_TIMESTAMP` is the abstract
`now` parameter threaded through the passes. -/
structure StationRow where
  station_id : Json
  place_name : Json
  country : Json
  api_source : Json
  latitude : Json
  longitude : Json
  province : Json
  lookup_count : ℤ
  last_lookup : ℤ
deriving DecidableEq

/-- The shared `INSERT ... ON CONFLICT(station_id) DO UPDATE` statement of
canadian_station_sync.py (lines 231-249 and 294-312): insert a fresh row
with the default `lookup_count` of 1, or update only the descriptive columns
of the existing row, leaving `lookup_count` and `last_lookup` untouched. -/
def upsertStation (db : List StationRow) (sid pn ctry src lat lng prov : Json) (now : ℤ) :
    List StationRow :=
  if db.any (fun r => r.station_id == sid) then
    db.map (fun r =>
      if r.station_id == sid then
        { r with place_name := pn, country := ctry, api_source := src,
                 latitude := lat, longitude := lng, province := prov }
      else r)
  else
    db ++ [{ station_id := sid, place_name := pn, country := ctry, api_source := src,
             latitude := lat, longitude := lng, province := prov,
             lookup_count := 1, last_lookup := now }]

/-- One upsert of the API pass (canadian_station_sync.py:293-312), binding
the fetched station's fields into the shared statement. -/
def upsertCanApiRow (now : ℤ) (d : List StationRow) (s : CanStation) : List StationRow :=
  upsertStation d s.code (.str s.place_name) (.str ("Canada".data)) (.str ("CHS".data))
    s.latitude s.longitude (.str s.province) now

/-- The database phase of `import_canadian_stations_from_api`
(canadian_station_sync.py:284-331) applied to a fetched station list: upsert
every station, then delete the rows whose country is 'Canada', whose
api_source is 'CHS' and whose station_id is not among the fetched codes. -/
def sync_canadian_stations_db (db : List StationRow) (stations : List CanStation) (now : ℤ) :
    List StationRow :=
  let db1 := stations.foldl (upsertCanApiRow now) db
  let codes := stations.map (fun s => s.code)
  db1.filter (fun r =>
    !(r.country == .str ("Canada".data) && r.api_source == .str ("CHS".data) &&
      !codes.contains r.station_id))

/-- A row of the bundled Canadian snapshot as read by the sync module's CSV
fallback (canadian_station_sync.py:230-249); `none` coordinates model absent
keys (`station.get('latitude', 0)`). -/
structure CanCsvRow where
  station_id : Str
  place_name : Str
  latitude : Option Str
  longitude : Option Str
  province : Str
deriving DecidableEq

/-- `float(station.get('latitude', 0))` (canadian_station_sync.py:246-247):
an absent key becomes 0.0; an unparseable text raises `ValueError`. -/
def csvCoord? : Option Str → Option ℚ
  | none => some 0
  | some s => pyFloat? s

/-- The row loop of `import_canadian_stations_from_csv`
(canadian_station_sync.py:230-251) with its transactional semantics: a
`ValueError` mid-loop rolls the open transaction back to the initial catalog
`db0` and reports failure; reaching the end commits. -/
def import_can_csv_rows (db0 : List StationRow) (now : ℤ) :
    List StationRow → List CanCsvRow → Bool × List StationRow
  | db, [] => (true, db)
  | db, row :: rest =>
    match csvCoord? row.latitude, csvCoord? row.longitude with
    | some la, some lo =>
      import_can_csv_rows db0 now
        (upsertStation db (.str row.station_id) (.str row.place_name)
          (.str ("Canada".data)) (.str ("CHS".data)) (.num la) (.num lo)
          (.str row.province) now) rest
    | _, _ => (false, db0)

/-- `import_canadian_stations_from_csv` (canadian_station_sync.py:201-257):
a `none` snapshot is the absent or unreadable file — report failure with the
catalog untouched; otherwise upsert each row (there is no delete step in
this pass), rolling back on a mid-loop fault. -/
def import_canadian_stations_from_csv_sync (db : List StationRow)
    (snapshot : Option (List CanCsvRow)) (now : ℤ) : Bool × List StationRow :=
  match snapshot with
  | none => (false, db)
  | some rows => import_can_csv_rows db now db rows

/-- `import_canadian_stations_from_api` (canadian_station_sync.py:260-340):
`fetched = none` is the failed remote fetch; `dbFault` models a
persistence-layer exception during the database phase (the `with` block
rolls the transaction back before the CSV fallback runs). -/
def import_canadian_stations_from_api_model (db : List StationRow)
    (fetched : Option (List CanStation)) (dbFault : Bool)
    (snapshot : Option (List CanCsvRow)) (now : ℤ) : Bool × List StationRow :=
  match fetched with
  | none => import_canadian_stations_from_csv_sync db snapshot now
  | some stations =>
    if dbFault then import_canadian_stations_from_csv_sync db snapshot now
    else (true, sync_canadian_stations_db db stations now)

/-- A row of the bundled US snapshot (database.py:106-111). -/
structure UsCsvRow where
  station_id : Str
  place_name : Str
deriving DecidableEq

/-- One `INSERT OR REPLACE` of `database.import_stations_from_csv`
(database.py:114-118): drop any existing row with this station_id and insert
a fresh one whose `lookup_count` is 1 and whose columns outside the
statement are NULL. -/
def replaceUsRow (now : ℤ) (d : List StationRow) (row : UsCsvRow) : List StationRow :=
  d.filter (fun r => !(r.station_id == .str row.station_id)) ++
    [{ station_id := .str row.station_id, place_name := .str row.place_name,
       country := .null, api_source := .null, latitude := .null,
       longitude := .null, province := .null, lookup_count := 1, last_lookup := now }]

/-- `database.import_stations_from_csv` (database.py:84-139) applied to the
CSV rows: skip when at least 100 rows already carry a place name; otherwise
`INSERT OR REPLACE` each row, then delete every row, of any source, whose
station_id is not in the CSV. -/
def import_stations_from_csv_model (db : List StationRow) (rows : List UsCsvRow) (now : ℤ) :
    Bool × List StationRow :=
  if 100 ≤ (db.filter (fun r => !(r.place_name == Json.null))).length then (true, db)
  else
    let db1 := rows.foldl (replaceUsRow now) db
    let ids := rows.map (fun row => Json.str row.station_id)
    let db2 := if ids.isEmpty then db1 else db1.filter (fun r => ids.contains r.station_id)
    (true, db2)

/-- A row of the bundled Canadian snapshot as read by
`database.import_canadian_stations_from_csv` (database.py:302-324), with the
`country`/`api_source` defaults already applied. -/
structure DbCanCsvRow where
  station_id : Str
  place_name : Str
  province : Str
  latitude : Option Str
  longitude : Option Str
  country : Str
  api_source : Str
deriving DecidableEq

/-- Coordinate parsing of database.py:310-321: absent or blank text becomes
NULL, and a per-row parse failure is caught and also becomes NULL. -/
def dbCsvCoord : Option Str → Json
  | none => .null
  | some s =>
    if (strip s).isEmpty then .null
    else
      match pyFloat? s with
      | some q => .num q
      | none => .null

/-- One `INSERT OR REPLACE` of `database.import_canadian_stations_from_csv`
(database.py:327-331): drop any existing row with this station_id and insert
a fresh one whose `lookup_count` is 1. -/
def replaceDbCanRow (now : ℤ) (d : List StationRow) (row : DbCanCsvRow) : List StationRow :=
  d.filter (fun r => !(r.station_id == .str row.station_id)) ++
    [{ station_id := .str row.station_id, place_name := .str row.place_name,
       country := .str row.country, api_source := .str row.api_source,
       latitude := dbCsvCoord row.latitude, longitude := dbCsvCoord row.longitude,
       province := .str row.province, lookup_count := 1, last_lookup := now }]

/-- `database.import_canadian_stations_from_csv` (database.py:281-350): skip
when more than 10 rows already have country 'Canada'; otherwise
`INSERT OR REPLACE` each row (resetting `lookup_count` to 1), then delete
every row whose country is 'Canada' and whose station_id is not in the
CSV. -/
def db_import_canadian_from_csv_model (db : List StationRow) (rows : List DbCanCsvRow)
    (now : ℤ) : Bool × List StationRow :=
  if 10 < (db.filter (fun r => r.country == Json.str ("Canada".data))).length then (true, db)
  else
    let db1 := rows.foldl (replaceDbCanRow now) db
    let ids := rows.map (fun row => Json.str row.station_id)
    let db2 :=
      if ids.isEmpty then db1
      else db1.filter (fun r =>
        !(r.country == Json.str ("Canada".data) && !ids.contains r.station_id))
    (true, db2)

/-- A Canadian (CHS) catalog row with an accumulated usage count. -/
def chsRowUsed : StationRow :=
  { station_id := .str ("07735".data), place_name := .str ("Vancouver, BC".data),
    country := .str ("Canada".data), api_source := .str ("CHS".data),
    latitude := .num 49, longitude := .num (-123), province := .str ("BC".data),
    lookup_count := 5, last_lookup := 0 }

/-- A US (NOAA) catalog row with an accumulated usage count. -/
def usRow0 : StationRow :=
  { station_id := .str ("9449639".data), place_name := .str ("Point Roberts, WA".data),
    country := .null, api_source := .null, latitude := .null, longitude := .null,
    province := .null, lookup_count := 7, last_lookup := 0 }

/-- A stale Canadian (CHS) row absent from the current snapshot. -/
def staleChsRow : StationRow :=
  { station_id := .str ("99999".data), place_name := .str ("Old Station".data),
    country := .str ("Canada".data), api_source := .str ("CHS".data),
    latitude := .null, longitude := .null, province := .str [],
    lookup_count := 3, last_lookup := 0 }

/-- The Vancouver row of the bundled Canadian snapshot (sync module form). -/
def vanCsvRow : CanCsvRow :=
  { station_id := "07735".data, place_name := "Vancouver, BC".data,
    latitude := some ("49".data), longitude := some ("-123".data),
    province := "BC".data }

/-- The same Vancouver data as a fetched-directory descriptor. -/
def vanCsvStation : CanStation :=
  { code := .str ("07735".data), officialName := "Vancouver".data,
    latitude := .num 49, longitude := .num (-123), province := "BC".data,
    place_name := "Vancouver, BC".data }

/-- The Vancouver row of the bundled Canadian snapshot (database.py form). -/
def vanDbCsvRow : DbCanCsvRow :=
  { station_id := "07735".data, place_name := "Vancouver, BC".data,
    province := "BC".data, latitude := some ("49".data), longitude := some ("-123".data),
    country := "Canada".data, api_source := "CHS".data }

/-! ## Theorems -/

/-- `round1` is rounding to the nearest tenth. -/
theorem round1_eq_round (q : ℚ) : round1 q = ((round (10 * q) : ℤ) : ℚ) / 10 := by
  have hx : q * (q.den : ℚ) = q.num := Rat.mul_den_eq_num q
  have hden : (q.den : ℚ) ≠ 0 := Nat.cast_ne_zero.mpr q.den_nz
  have harg : (mkRat (20 * q.num + (q.den : ℤ)) (2 * q.den) : ℚ) = 10 * q + 1/2 := by
    rw [Rat.mkRat_eq_div]
    push_cast
    field_simp
    linarith [hx]
  unfold round1
  rw [Rat.mkRat_eq_div, harg, round_eq]
  norm_num

/-- C6: NOAA validate accepts exactly the purely numeric ids of length 6–8. -/
theorem noaa_validate_iff (s : Str) :
    validate_station_noaa s = true ↔
      (s.all isDigitChar = true ∧ 6 ≤ s.length ∧ s.length ≤ 8) := by
  unfold validate_station_noaa pyIsdigit
  rcases s with _ | ⟨c, t⟩ <;> simp_all

/-- C7 counterexample: a string of eleven hyphens consists of
alphanumerics-and-hyphens and has length greater than 10, yet Variant B's
validate rejects it, because after hyphen removal the empty remainder fails
Python's `isalnum` (empty strings are not alphanumeric). -/
theorem chs_validate_hyphens_rejected :
    (List.replicate 11 '-').all isAlnumOrHyphen = true ∧
    10 < (List.replicate 11 '-').length ∧
    validate_station_chs (List.replicate 11 '-') = false := by decide

/-- C7 amended: Variant B's validate accepts every id that is an
alphanumeric/hyphen string of length greater than 10 containing at least one
alphanumeric character, and every purely numeric id of length 4 to 6. -/
theorem chs_validate_accepts (s : Str)
    (h : (s.all isAlnumOrHyphen = true ∧ 10 < s.length ∧ s.any isAlnumChar = true) ∨
         (s.all isDigitChar = true ∧ 4 ≤ s.length ∧ s.length ≤ 6)) :
    validate_station_chs s = true := by
  unfold validate_station_chs pyIsalnum pyIsdigit
  rcases h with ⟨hall, hlen, hany⟩ | ⟨hdig, hlo, hhi⟩
  · have hne : s ≠ [] := by
      intro e; subst e; simp at hlen
    have h1 : (s.filter (fun c => c ≠ '-')).all isAlnumChar = true := by
      rw [List.all_eq_true] at hall ⊢
      intro c hc
      rw [List.mem_filter] at hc
      have h2 := hall c hc.1
      unfold isAlnumOrHyphen at h2
      have h3 := hc.2
      simp only [decide_eq_true_eq] at h3
      simp only [Bool.or_eq_true, decide_eq_true_eq] at h2
      tauto
    have h2 : (s.filter (fun c => c ≠ '-')) ≠ [] := by
      rw [List.any_eq_true] at hany
      obtain ⟨c, hc, hcal⟩ := hany
      intro e
      have hmem : c ∈ s.filter (fun c => c ≠ '-') := by
        rw [List.mem_filter]
        refine ⟨hc, ?_⟩
        simp only [decide_eq_true_eq]
        intro e'
        subst e'
        simp [isAlnumChar, isDigitChar] at hcal
      rw [e] at hmem
      simp at hmem
    simp only [List.all_eq_true] at h1
    simp [hne, hlen]
    left
    constructor
    · obtain ⟨c, hc⟩ := List.exists_mem_of_ne_nil _ h2
      rw [List.mem_filter] at hc
      exact ⟨c, hc.1, by simpa using hc.2⟩
    · intro x hx
      have hx2 := (List.all_eq_true.mp hall) x hx
      unfold isAlnumOrHyphen at hx2
      simp only [Bool.or_eq_true, decide_eq_true_eq] at hx2
      tauto
  · have hne : s ≠ [] := by
      intro e; subst e; simp at hlo
    have hgt : ¬ (10 < s.length) := by omega
    simp [hne, hdig, hgt, hlo, hhi]

/-- Witness for `chs_validate_accepts`: both disjuncts at concrete ids. -/
theorem chs_validate_accepts_witness :
    validate_station_chs "05cebf1df3d0f4a073c4bb9a8".data = true ∧
    validate_station_chs "07735".data = true :=
  ⟨chs_validate_accepts _ (Or.inl (by decide)),
   chs_validate_accepts _ (Or.inr (by decide))⟩

/-- Reading a mapped-`some` list at an in-range index. -/
theorem getD_map_some (vs : List ℚ) (k : ℕ) (hk : k < vs.length) :
    (vs.map some).getD k none = some (vs.getD k 0) := by
  simp [List.getD_eq_getElem?_getD, List.getElem?_map, List.getElem?_eq_getElem, hk]

/-- Reading a mapped-`some` list out of range yields the default. -/
theorem getD_map_some_none (vs : List ℚ) (k : ℕ) (hk : vs.length ≤ k) :
    (vs.map some).getD k none = none := by
  simp [List.getD_eq_getElem?_getD, List.getElem?_eq_none, hk]

/-- C5: for a Variant B height series, the inferred tide kind is High when the
value is strictly greater than both chronological neighbors and Low when
strictly less than both; with a single neighbor, High exactly when greater
than it; for a single-element series the alternating default gives Low at
index 0.  In particular `[0.5, 4.8, 0.3]` classifies index 1 as High and
indices 0 and 2 as Low. -/
theorem chs_tide_type_neighbor_rule (vs : List ℚ) (i : ℕ) (hi : i < vs.length) :
    ((0 < i ∧ i + 1 < vs.length) →
      (vs.getD i 0 > vs.getD (i-1) 0 ∧ vs.getD i 0 > vs.getD (i+1) 0 →
        determine_tide_type (vs.map some) i (vs.getD i 0) = 'H') ∧
      (vs.getD i 0 < vs.getD (i-1) 0 ∧ vs.getD i 0 < vs.getD (i+1) 0 →
        determine_tide_type (vs.map some) i (vs.getD i 0) = 'L')) ∧
    ((0 < i ∧ i + 1 = vs.length) →
      determine_tide_type (vs.map some) i (vs.getD i 0) =
        if vs.getD i 0 > vs.getD (i-1) 0 then 'H' else 'L') ∧
    ((i = 0 ∧ 1 < vs.length) →
      determine_tide_type (vs.map some) i (vs.getD i 0) =
        if vs.getD 0 0 > vs.getD 1 0 then 'H' else 'L') ∧
    (vs.length = 1 → determine_tide_type (vs.map some) i (vs.getD i 0) = 'L') ∧
    (determine_tide_type [some (mkRat 1 2), some (mkRat 24 5), some (mkRat 3 10)] 1 (mkRat 24 5) = 'H' ∧
     determine_tide_type [some (mkRat 1 2), some (mkRat 24 5), some (mkRat 3 10)] 0 (mkRat 1 2) = 'L' ∧
     determine_tide_type [some (mkRat 1 2), some (mkRat 24 5), some (mkRat 3 10)] 2 (mkRat 3 10) = 'L') := by
  refine ⟨?_, ?_, ?_, ?_, by decide⟩
  · rintro ⟨h0, h1⟩
    have hm1 : (vs.map some).getD (i-1) none = some (vs.getD (i-1) 0) := getD_map_some _ _ (by omega)
    have hm2 : (vs.map some).getD (i+1) none = some (vs.getD (i+1) 0) := getD_map_some _ _ (by omega)
    have hl : i < (vs.map some).length - 1 := by rw [List.length_map]; omega
    constructor
    · rintro ⟨ha, hb⟩
      simp only [determine_tide_type, if_pos h0, if_pos hl, hm1, hm2]
      rw [if_pos ⟨ha, hb⟩]
    · rintro ⟨ha, hb⟩
      simp only [determine_tide_type, if_pos h0, if_pos hl, hm1, hm2]
      rw [if_neg (by rintro ⟨x, -⟩; exact absurd x (not_lt.mpr (le_of_lt ha))),
          if_pos ⟨ha, hb⟩]
  · rintro ⟨h0, h1⟩
    have hm1 : (vs.map some).getD (i-1) none = some (vs.getD (i-1) 0) := getD_map_some _ _ (by omega)
    have hl : ¬ (i < (vs.map some).length - 1) := by rw [List.length_map]; omega
    simp only [determine_tide_type, if_pos h0, if_neg hl, hm1]
  · rintro ⟨h0, h1⟩
    subst h0
    have hm2 : (vs.map some).getD (0+1) none = some (vs.getD (0+1) 0) := getD_map_some _ _ (by omega)
    have hl : 0 < (vs.map some).length - 1 := by rw [List.length_map]; omega
    simp only [determine_tide_type, lt_irrefl, if_false, if_pos hl, hm2]
  · intro h1
    have h0 : i = 0 := by omega
    subst h0
    have hl : ¬ (0 < (vs.map some).length - 1) := by rw [List.length_map]; omega
    simp only [determine_tide_type, lt_irrefl, if_false, if_neg hl]
    rfl

/-- Witness for `chs_tide_type_neighbor_rule`: the spec's `[0.5, 4.8, 0.3]`
scenario at index 1. -/
theorem chs_tide_type_neighbor_rule_witness :
    determine_tide_type ([mkRat 1 2, mkRat 24 5, mkRat 3 10].map some) 1
      ([mkRat 1 2, mkRat 24 5, mkRat 3 10].getD 1 0) = 'H' :=
  ((chs_tide_type_neighbor_rule [mkRat 1 2, mkRat 24 5, mkRat 3 10] 1 (by decide)).1
    ⟨by decide, by decide⟩).1 ⟨by decide, by decide⟩

/-- C8 counterexample: the empty id is accepted by neither adapter's
validate, yet the dispatcher fails with the distinct empty-station-id
`ValueError` ("Station ID cannot be empty"), not the unrecognized-identifier
one ("Station ID format not recognized"). -/
theorem dispatcher_empty_id_not_unrecognized :
    validate_station_noaa [] = false ∧ validate_station_chs [] = false ∧
    get_adapter_for_station [] none = .error .emptyStationId ∧
    get_adapter_for_station [] none ≠ .error (.unrecognized []) := by decide

/-- C8 amended: a nonempty hint naming a known provider returns that
provider's adapter unconditionally; with no hint, Variant A is probed first
and then Variant B, the first whose validate accepts winning; a nonempty id
no adapter accepts fails with the unrecognized-identifier error, while the
empty id fails with the distinct empty-station-id error. -/
theorem dispatcher_spec (sid hint : Str) :
    (hint ≠ [] → toUpperStr hint = "NOAA".data →
      get_adapter_for_station sid (some hint) = .ok .noaa) ∧
    (hint ≠ [] → toUpperStr hint = "CHS".data →
      get_adapter_for_station sid (some hint) = .ok .chs) ∧
    (validate_station_noaa sid = true → get_adapter_for_station sid none = .ok .noaa) ∧
    (validate_station_noaa sid = false → validate_station_chs sid = true →
      get_adapter_for_station sid none = .ok .chs) ∧
    (sid ≠ [] → validate_station_noaa sid = false → validate_station_chs sid = false →
      get_adapter_for_station sid none = .error (.unrecognized sid)) ∧
    (sid = [] → get_adapter_for_station sid none = .error .emptyStationId) := by
  refine ⟨?_, ?_, ?_, ?_, ?_, ?_⟩
  · intro hne hU
    simp [get_adapter_for_station, hne, hU]
  · intro hne hU
    have : toUpperStr hint ≠ "NOAA".data := by
      rw [hU]; decide
    simp [get_adapter_for_station, hne, hU, this]
  · intro hv
    have hne : sid ≠ [] := by
      intro e; subst e; simp [validate_station_noaa] at hv
    simp [get_adapter_for_station, dispatch_by_format, hne, hv]
  · intro hv hc
    have hne : sid ≠ [] := by
      intro e; subst e; simp [validate_station_chs] at hc
    simp [get_adapter_for_station, dispatch_by_format, hne, hv, hc]
  · intro hne hv hc
    simp [get_adapter_for_station, dispatch_by_format, hne, hv, hc]
  · intro he
    subst he
    simp [get_adapter_for_station, dispatch_by_format]

/-- Witness for `dispatcher_spec`: the hint is honored even though
`"123"` fails NOAA validation, and probing accepts a 7-digit id as NOAA. -/
theorem dispatcher_spec_witness :
    get_adapter_for_station "123".data (some "noaa".data) = .ok .noaa ∧
    get_adapter_for_station "9449639".data none = .ok .noaa :=
  ⟨(dispatcher_spec "123".data "noaa".data).1 (by decide) (by decide),
   (dispatcher_spec "9449639".data "noaa".data).2.2.1 (by decide)⟩

/-- C10: both adapters return `None` without issuing any remote request
exactly when the id fails validation or the month is outside 1–12 or the
year is outside the hard 2000–2030 window; in particular every out-of-window
year is rejected before any network traffic, even for valid ids. -/
theorem adapters_year_month_gate (sid : Str) (y m : ℤ) :
    (noaa_request_plan sid y m = none ↔
      (validate_station_noaa sid = false ∨ m < 1 ∨ 12 < m ∨ y < 2000 ∨ 2030 < y)) ∧
    (chs_request_plan sid y m = none ↔
      (validate_station_chs sid = false ∨ m < 1 ∨ 12 < m ∨ y < 2000 ∨ 2030 < y)) := by
  constructor
  · unfold noaa_request_plan
    split_ifs with h1 h2 h3 <;> simp_all <;> omega
  · unfold chs_request_plan
    split_ifs with h1 h2 h3 h4 <;> simp_all <;> omega

/-- C4: the Variant A scenario response parses to exactly the two canonical
events `(2024-06-01 00:17, 3.245, H)` and `(2024-06-01 06:42, 0.123, L)`,
with the full-precision heights kept in the canonical CSV; the pcal output
stage is where rounding to one decimal happens, rendering them as
`(6/1, 00:17, High, 3.2)` and `(6/1, 06:42, Low, 0.1)`. -/
theorem noaa_variantA_scenario :
    parse_response_noaa variantAResponse =
      some ("Date Time,Prediction,Type\n2024-06-01 00:17,3.245,H\n2024-06-01 06:42,0.123,L".data) ∧
    pyFloat? ("3.245".data) = some (mkRat 3245 1000) ∧
    mkRat 3245 1000 ≠ round1 (mkRat 3245 1000) ∧
    convert_tide_line ("2024-06-01 00:17,3.245,H".data) =
      some ⟨6, 1, "00:17".data, "High".data, mkRat 16 5, false⟩ ∧
    convert_tide_line ("2024-06-01 06:42,0.123,L".data) =
      some ⟨6, 1, "06:42".data, "Low".data, mkRat 1 10, true⟩ := by decide

/-- A failing endpoint is skipped: the loop continues down the list. -/
theorem fetchLoop_skip (oracle : Str → DirectoryReply) (url : Str) (rest : List Str)
    (h : endpointFails oracle url) :
    fetchLoop oracle (url :: rest) =
      ((fetchLoop oracle rest).1, url :: (fetchLoop oracle rest).2) := by
  cases ho : oracle url with
  | netError => simp only [fetchLoop, ho]
  | reply status body =>
    by_cases hs : status = 200
    · subst hs
      simp only [fetchLoop, ho, ne_eq, not_true_eq_false, if_false]
      cases body with
      | none => rfl
      | some j =>
        cases hp : processStations j with
        | none => simp [hp]
        | some sts => exact absurd ⟨j, sts, ho, hp⟩ h
    · simp only [fetchLoop, ho, ne_eq]
      rw [if_pos hs]

/-- A succeeding endpoint wins immediately: nothing after it is contacted. -/
theorem fetchLoop_win (oracle : Str → DirectoryReply) (url : Str) (rest : List Str)
    (j : Json) (sts : List CanStation)
    (h200 : oracle url = .reply 200 (some j)) (hp : processStations j = some sts) :
    fetchLoop oracle (url :: rest) = (.success sts url, [url]) := by
  simp only [fetchLoop, h200, ne_eq, not_true_eq_false, if_false, hp]

/-- C9: the directory fetch tries its two fixed endpoints in order; the
first to answer 200 with a body that parses and filters wins and the second
is never contacted; when the first fails the second is tried; when both fail
the fetch returns the failure signal, with both endpoints having been tried,
rather than raising. -/
theorem fetch_endpoint_failover (oracle : Str → DirectoryReply) :
    (∀ j sts, oracle CHS_URL_AZURE = .reply 200 (some j) → processStations j = some sts →
      fetch_canadian_stations_from_api oracle =
        (.success sts CHS_URL_AZURE, [CHS_URL_AZURE])) ∧
    (endpointFails oracle CHS_URL_AZURE →
      ∀ j sts, oracle CHS_URL_LEGACY = .reply 200 (some j) → processStations j = some sts →
      fetch_canadian_stations_from_api oracle =
        (.success sts CHS_URL_LEGACY, [CHS_URL_AZURE, CHS_URL_LEGACY])) ∧
    (endpointFails oracle CHS_URL_AZURE → endpointFails oracle CHS_URL_LEGACY →
      fetch_canadian_stations_from_api oracle =
        (.failure ("All CHS API endpoints failed".data), [CHS_URL_AZURE, CHS_URL_LEGACY])) := by
  refine ⟨?_, ?_, ?_⟩
  · intro j sts h200 hp
    exact fetchLoop_win oracle _ _ j sts h200 hp
  · intro h1 j sts h200 hp
    unfold fetch_canadian_stations_from_api
    rw [fetchLoop_skip oracle _ _ h1, fetchLoop_win oracle _ _ j sts h200 hp]
  · intro h1 h2
    unfold fetch_canadian_stations_from_api
    rw [fetchLoop_skip oracle _ _ h1, fetchLoop_skip oracle _ _ h2]
    rfl

/-- Witness for `fetch_endpoint_failover`: with a 500 from the first
endpoint, the second endpoint's data wins. -/
theorem fetch_endpoint_failover_witness :
    fetch_canadian_stations_from_api scenarioOracle =
      (.success [vancouverStation] CHS_URL_LEGACY, [CHS_URL_AZURE, CHS_URL_LEGACY]) :=
  (fetch_endpoint_failover scenarioOracle).2.1
    (by
      rintro ⟨j, sts, hj, -⟩
      have h5 : scenarioOracle CHS_URL_AZURE = .reply 500 (some (.arr .nil)) := by decide
      rw [h5] at hj
      simp at hj)
    (.arr (JsonList.ofList [vancouverJson])) [vancouverStation]
    (by decide) (by decide)

/-- A row whose id an upsert does not target is carried through unchanged. -/
theorem upsertStation_preserves (db : List StationRow) (sid pn ctry src lat lng prov : Json)
    (now : ℤ) (r : StationRow) (hr : r ∈ db) (hne : r.station_id ≠ sid) :
    r ∈ upsertStation db sid pn ctry src lat lng prov now := by
  unfold upsertStation
  split
  · refine List.mem_map.mpr ⟨r, hr, ?_⟩
    rw [if_neg]
    simp [hne]
  · exact List.mem_append_left _ hr

/-- Every upsert keeps a row with each pre-existing station_id present. -/
theorem upsertStation_keeps_id (db : List StationRow) (sid pn ctry src lat lng prov : Json)
    (now : ℤ) (r : StationRow) (hr : r ∈ db) :
    ∃ r' ∈ upsertStation db sid pn ctry src lat lng prov now,
      r'.station_id = r.station_id := by
  unfold upsertStation
  split
  · refine ⟨_, List.mem_map.mpr ⟨r, hr, rfl⟩, ?_⟩
    split <;> rfl
  · exact ⟨r, List.mem_append_left _ hr, rfl⟩

/-- Rows whose id is not among the fetched codes pass through the API pass's
upsert loop unchanged. -/
theorem upsertCanApiRow_foldl_preserves (stations : List CanStation) (db : List StationRow)
    (now : ℤ) (r : StationRow) (hr : r ∈ db)
    (hcode : ∀ s ∈ stations, r.station_id ≠ s.code) :
    r ∈ stations.foldl (upsertCanApiRow now) db := by
  induction stations generalizing db with
  | nil => exact hr
  | cons s rest ih =>
    simp only [List.foldl_cons]
    exact ih _
      (upsertStation_preserves _ _ _ _ _ _ _ _ _ r hr (hcode s (List.mem_cons_self s rest)))
      (fun t ht => hcode t (List.mem_cons_of_mem s ht))

/-- Rows whose id is not among the snapshot's ids pass through the CSV
fallback loop unchanged (also on rollback, where the whole catalog is
restored). -/
theorem import_can_csv_rows_preserves (rows : List CanCsvRow) (db0 db : List StationRow)
    (now : ℤ) (r : StationRow) (h0 : r ∈ db0) (hr : r ∈ db)
    (hid : ∀ c ∈ rows, r.station_id ≠ .str c.station_id) :
    r ∈ (import_can_csv_rows db0 now db rows).2 := by
  induction rows generalizing db with
  | nil => exact hr
  | cons c rest ih =>
    simp only [import_can_csv_rows]
    cases hla : csvCoord? c.latitude with
    | none => exact h0
    | some la =>
      cases hlo : csvCoord? c.longitude with
      | none => exact h0
      | some lo =>
        exact ih _
          (upsertStation_preserves _ _ _ _ _ _ _ _ _ r hr (hid c (List.mem_cons_self c rest)))
          (fun t ht => hid t (List.mem_cons_of_mem c ht))

/-- The CSV fallback loop reports failure only with the catalog rolled back
to its initial state. -/
theorem import_can_csv_rows_rollback (rows : List CanCsvRow) (db0 db : List StationRow)
    (now : ℤ) (h : (import_can_csv_rows db0 now db rows).1 = false) :
    (import_can_csv_rows db0 now db rows).2 = db0 := by
  induction rows generalizing db with
  | nil => simp [import_can_csv_rows] at h
  | cons c rest ih =>
    simp only [import_can_csv_rows] at h ⊢
    cases hla : csvCoord? c.latitude with
    | none => rfl
    | some la =>
      cases hlo : csvCoord? c.longitude with
      | none => rfl
      | some lo =>
        rw [hla, hlo] at h
        exact ih _ h

/-- The CSV fallback loop keeps a row with each pre-existing station_id
present: it never deletes. -/
theorem import_can_csv_rows_keeps_ids (rows : List CanCsvRow) (db0 db : List StationRow)
    (now : ℤ) (sid : Json) (h0 : ∃ r ∈ db0, r.station_id = sid)
    (hr : ∃ r ∈ db, r.station_id = sid) :
    ∃ r' ∈ (import_can_csv_rows db0 now db rows).2, r'.station_id = sid := by
  induction rows generalizing db with
  | nil => exact hr
  | cons c rest ih =>
    simp only [import_can_csv_rows]
    cases hla : csvCoord? c.latitude with
    | none => exact h0
    | some la =>
      cases hlo : csvCoord? c.longitude with
      | none => exact h0
      | some lo =>
        obtain ⟨r, hmem, hid⟩ := hr
        obtain ⟨r', hmem', hid'⟩ :=
          upsertStation_keeps_id db (.str c.station_id) (.str c.place_name)
            (.str ("Canada".data)) (.str ("CHS".data)) (.num la) (.num lo)
            (.str c.province) now r hmem
        exact ih _ ⟨r', hmem', hid'.trans hid⟩

/-- Rows whose id is not among the snapshot's ids pass through the
`INSERT OR REPLACE` loop of database.py's Canadian import unchanged. -/
theorem replaceDbCanRow_foldl_preserves (drows : List DbCanCsvRow) (db : List StationRow)
    (now : ℤ) (r : StationRow) (hr : r ∈ db)
    (hid : ∀ c ∈ drows, r.station_id ≠ .str c.station_id) :
    r ∈ drows.foldl (replaceDbCanRow now) db := by
  induction drows generalizing db with
  | nil => exact hr
  | cons c rest ih =>
    simp only [List.foldl_cons]
    refine ih _ ?_ (fun t ht => hid t (List.mem_cons_of_mem c ht))
    unfold replaceDbCanRow
    refine List.mem_append_left _ (List.mem_filter.mpr ⟨hr, ?_⟩)
    simp [hid c (List.mem_cons_self c rest)]

/-- C1 counterexample: the US snapshot pass is a synchronization pass whose
delete step has no source filter: on a below-threshold catalog holding a
Canadian CHS row, importing the US snapshot deletes that row even though its
source is not the pass's own. -/
theorem us_import_deletes_chs_row :
    chsRowUsed.country = .str ("Canada".data) ∧
    chsRowUsed.api_source = .str ("CHS".data) ∧
    (import_stations_from_csv_model [chsRowUsed]
      [{ station_id := "9449639".data, place_name := "Point Roberts, WA".data }] 1).1 = true ∧
    ∀ r ∈ (import_stations_from_csv_model [chsRowUsed]
      [{ station_id := "9449639".data, place_name := "Point Roberts, WA".data }] 1).2,
      r.station_id ≠ .str ("07735".data) := by decide

/-- C1 amended: the Canadian synchronization passes never delete or modify a
row of another source whose station id is absent from the reconciled set:
the API pass preserves such rows verbatim and deletes only rows marked
country 'Canada' and api_source 'CHS'; its CSV fallback deletes nothing; the
database.py Canadian import preserves every non-Canada row absent from its
snapshot.  (The US snapshot pass, by contrast, deletes rows of any source
not in its snapshot — the counterexample.) -/
theorem sync_pass_deletion_scope (db : List StationRow) (stations : List CanStation)
    (rows : List CanCsvRow) (drows : List DbCanCsvRow) (now : ℤ) (r : StationRow)
    (hr : r ∈ db) :
    ((∀ s ∈ stations, r.station_id ≠ s.code) →
      ¬ (r.country = .str ("Canada".data) ∧ r.api_source = .str ("CHS".data)) →
      r ∈ sync_canadian_stations_db db stations now) ∧
    ((∀ s ∈ stations, r.station_id ≠ s.code) →
      r ∉ sync_canadian_stations_db db stations now →
      r.country = .str ("Canada".data) ∧ r.api_source = .str ("CHS".data)) ∧
    ((∀ c ∈ rows, r.station_id ≠ .str c.station_id) →
      r ∈ (import_canadian_stations_from_csv_sync db (some rows) now).2) ∧
    ((∀ c ∈ drows, r.station_id ≠ .str c.station_id) →
      r.country ≠ .str ("Canada".data) →
      r ∈ (db_import_canadian_from_csv_model db drows now).2) := by
  refine ⟨?_, ?_, ?_, ?_⟩
  · intro hcode hsrc
    have h1 : r ∈ stations.foldl (upsertCanApiRow now) db :=
      upsertCanApiRow_foldl_preserves stations db now r hr hcode
    unfold sync_canadian_stations_db
    refine List.mem_filter.mpr ⟨h1, ?_⟩
    simp only [Bool.not_eq_true', Bool.and_eq_false_iff, beq_eq_false_iff_ne, ne_eq,
      Bool.not_eq_false]
    by_cases hc : r.country = Json.str ("Canada".data)
    · by_cases hs : r.api_source = Json.str ("CHS".data)
      · exact absurd ⟨hc, hs⟩ hsrc
      · simp [hs]
    · simp [hc]
  · intro hcode hnot
    have h1 : r ∈ stations.foldl (upsertCanApiRow now) db :=
      upsertCanApiRow_foldl_preserves stations db now r hr hcode
    by_contra hne
    apply hnot
    unfold sync_canadian_stations_db
    refine List.mem_filter.mpr ⟨h1, ?_⟩
    simp only [Bool.not_eq_true', Bool.and_eq_false_iff, beq_eq_false_iff_ne, ne_eq,
      Bool.not_eq_false]
    by_cases hc : r.country = Json.str ("Canada".data)
    · by_cases hs : r.api_source = Json.str ("CHS".data)
      · exact absurd ⟨hc, hs⟩ hne
      · simp [hs]
    · simp [hc]
  · intro hid
    exact import_can_csv_rows_preserves rows db db now r hr hr hid
  · intro hid hc
    have h1 : r ∈ drows.foldl (replaceDbCanRow now) db :=
      replaceDbCanRow_foldl_preserves drows db now r hr hid
    simp only [db_import_canadian_from_csv_model]
    split
    · exact hr
    · split
      · exact h1
      · refine List.mem_filter.mpr ⟨h1, ?_⟩
        simp [hc]

/-- Witness for `sync_pass_deletion_scope`: a NOAA-owned row rides through a
Canadian API pass untouched. -/
theorem sync_pass_deletion_scope_witness :
    usRow0 ∈ sync_canadian_stations_db [usRow0] [vanCsvStation] 1 :=
  (sync_pass_deletion_scope [usRow0] [vanCsvStation] [] [] 1 usRow0 (by decide)).1
    (by decide) (by decide)

/-- C2 (code bug): `database.py`'s Canadian CSV import — a synchronization
pass — resets an existing row's `lookup_count` from 5 back to the import
default 1 via `INSERT OR REPLACE`, although the station stays in the
reconciled set; the repository's own preservation test
(`scripts/test_lookup_count_preservation.py`) states that re-imports must
preserve the count.  The sync module's API pass (third conjunct) does
preserve it, updating only descriptive fields. -/
theorem csv_reimport_resets_lookup_count :
    chsRowUsed.lookup_count = 5 ∧
    ((db_import_canadian_from_csv_model [chsRowUsed] [vanDbCsvRow] 1).2.map
      (fun r => (r.station_id, r.lookup_count))) = [(.str ("07735".data), 1)] ∧
    ((sync_canadian_stations_db [chsRowUsed] [vanCsvStation] 1).map
      (fun r => (r.station_id, r.lookup_count))) = [(.str ("07735".data), 5)] := by decide

/-- C3 counterexample: the fallback pass does not perform the remote pass's
delete step: a stale CHS row absent from the snapshot survives the CSV
fallback, while the remote reconciliation over the same station data deletes
it. -/
theorem csv_fallback_performs_no_delete :
    (import_canadian_stations_from_csv_sync [staleChsRow] (some [vanCsvRow]) 1).1 = true ∧
    staleChsRow ∈ (import_canadian_stations_from_csv_sync [staleChsRow] (some [vanCsvRow]) 1).2 ∧
    staleChsRow ∉ sync_canadian_stations_db [staleChsRow] [vanCsvStation] 1 := by decide

/-- C3 amended: when the remote fetch fails, or the database phase faults
mid-transaction (the transaction rolling back), the pass falls back to the
snapshot and performs the same usage-preserving upsert — but no delete step;
an absent or unreadable snapshot makes the whole synchronization report
failure with the catalog exactly unchanged; any failing fallback leaves the
catalog exactly unchanged (no partial mutation on total failure); and the
fallback never deletes a station id. -/
theorem sync_fallback_spec (db : List StationRow) (stations : List CanStation)
    (rows : List CanCsvRow) (snapshot : Option (List CanCsvRow)) (now : ℤ)
    (r : StationRow) (f : Bool) :
    (import_canadian_stations_from_api_model db none f snapshot now =
      import_canadian_stations_from_csv_sync db snapshot now) ∧
    (import_canadian_stations_from_api_model db (some stations) true snapshot now =
      import_canadian_stations_from_csv_sync db snapshot now) ∧
    (import_canadian_stations_from_csv_sync db none now = (false, db)) ∧
    ((import_canadian_stations_from_csv_sync db (some rows) now).1 = false →
      (import_canadian_stations_from_csv_sync db (some rows) now).2 = db) ∧
    (r ∈ db → ∃ r' ∈ (import_canadian_stations_from_csv_sync db (some rows) now).2,
      r'.station_id = r.station_id) := by
  refine ⟨rfl, by simp [import_canadian_stations_from_api_model], rfl, ?_, ?_⟩
  · intro h
    exact import_can_csv_rows_rollback rows db db now h
  · intro hr
    exact import_can_csv_rows_keeps_ids rows db db now r.station_id ⟨r, hr, rfl⟩ ⟨r, hr, rfl⟩

/-- Witness for `sync_fallback_spec`: the stale CHS row's id survives the
fallback run over the Vancouver snapshot. -/
theorem sync_fallback_spec_witness :
    ∃ r' ∈ (import_canadian_stations_from_csv_sync [staleChsRow] (some [vanCsvRow]) 1).2,
      r'.station_id = staleChsRow.station_id :=
  (sync_fallback_spec [staleChsRow] [] [vanCsvRow] none 1 staleChsRow false).2.2.2.2
    (by decide)
